import Mathlib

/-!
Verification of the lab-report field extractor of `src/app.py` (repository
`itsksunil/SaMD`).

The development shallowly embeds the extraction core:

* `normalizeText` models line 224, `re.sub(r'\s+', ' ', text)`;
* `Tok`/`Pattern` together with `runAll`/`reSearch` embed the small fragment of
  Python's `re` module that the source's patterns use (case-insensitive
  literals, greedy `+`/`*` and lazy `*?` over single-character classes, exact
  repetition, one capture group, leftmost search with backtracking preference);
* `test_patterns` mirrors the registry at lines 226-242 and `datePat` the
  pattern at line 255;
* `parseFloat` models Python `float` restricted to the capture alphabet
  (digits and dots), with values represented as exact rationals;
* `parseDate` models `pd.to_datetime(_, format='%d/%m/%Y')` including calendar
  validation and the pandas `Timestamp` range (1677-09-22 to 2262-04-11);
* `extract_lab_values_simple` embeds lines 222-262, and
  `extract_text_from_pdf` / `process_files` embed lines 208-220 and 345-361
  with the external PDF-to-text collaborator's outcome supplied as input.

Whitespace and case folding are modelled on the ASCII fragment, which covers
every pattern literal in the source.
-/

/-- ASCII fragment of Python's `\s` class: space, tab, newline, carriage
return, vertical tab, form feed. -/
def pyWs (c : Char) : Bool :=
  c == ' ' || c == '\t' || c == '\n' || c == '\r' || c == '\x0b' || c == '\x0c'

/-- Character class `[\d.]` used by every numeric capture group. -/
def digitDot (c : Char) : Bool :=
  c.isDigit || c == '.'

/-- The regex metacharacter `.`: any character except a newline. -/
def reDot (c : Char) : Bool :=
  c != '\n'

/-- Whitespace-collapsing core of `re.sub(r'\s+', ' ', text)`: every maximal
run of whitespace becomes a single space; the flag records whether the
previous character belonged to a whitespace run. -/
def collapseWs : Bool → List Char → List Char
  | _, [] => []
  | prevWs, c :: rest =>
    if pyWs c then
      if prevWs then collapseWs true rest
      else ' ' :: collapseWs true rest
    else c :: collapseWs false rest

/-- Line 224 of `src/app.py`: `text = re.sub(r'\s+', ' ', text)`. -/
def normalizeText (s : String) : String :=
  String.mk (collapseWs false s.data)

/-- One token of a source pattern: a literal (with a case-insensitivity flag),
a greedy `+`, a greedy `*`, a lazy `*?`, or an exact repetition `{n}`, the
quantified tokens ranging over a single-character class.  This is exactly the
fragment the regexes of `src/app.py` use. -/
inductive Tok where
  | lit (cs : List Char) (ci : Bool)
  | plusG (p : Char → Bool)
  | starG (p : Char → Bool)
  | starL (p : Char → Bool)
  | repN (p : Char → Bool) (n : Nat)

/-- Character comparison used for literals: ASCII case folding when the
`re.IGNORECASE` flag is set, exact comparison otherwise. -/
def ciEq (ci : Bool) (a b : Char) : Bool :=
  if ci then a.toLower == b.toLower else a == b

/-- Strip a literal from the front of the input, `none` on mismatch. -/
def stripLit (ci : Bool) : List Char → List Char → Option (List Char)
  | [], s => some s
  | _ :: _, [] => none
  | c :: cs, x :: xs => if ciEq ci c x then stripLit ci cs xs else none

/-- All ways a single token can consume a prefix of the input, as the list of
remaining suffixes in the engine's backtracking preference order (greedy
quantifiers longest first, lazy quantifiers shortest first). -/
def tokOutcomes (t : Tok) (s : List Char) : List (List Char) :=
  match t with
  | .lit cs ci =>
    match stripLit ci cs s with
    | some rest => [rest]
    | none => []
  | .plusG p =>
    let m := (s.takeWhile p).length
    (List.range m).map (fun i => s.drop (m - i))
  | .starG p =>
    let m := (s.takeWhile p).length
    (List.range (m + 1)).map (fun i => s.drop (m - i))
  | .starL p =>
    let m := (s.takeWhile p).length
    (List.range (m + 1)).map (fun i => s.drop i)
  | .repN p n =>
    if ((s.take n).length == n) && (s.take n).all p then [s.drop n] else []

/-- Concatenate the continuations of each outcome, preserving the
depth-first backtracking order. -/
def joinMap (k : List Char → List (List Char)) : List (List Char) → List (List Char)
  | [] => []
  | o :: os => k o ++ joinMap k os

/-- Run a token sequence at the start of the input; the result lists every
remaining suffix of a successful parse, in backtracking preference order. -/
def runAll : List Tok → List Char → List (List Char)
  | [], s => [s]
  | t :: ts, s => joinMap (runAll ts) (tokOutcomes t s)

/-- A source pattern, split at its single capture group: tokens before the
group, the group's tokens, and tokens after it. -/
structure Pattern where
  pre : List Tok
  cap : List Tok
  post : List Tok

/-- All captures of a match anchored at the start of `s`, in backtracking
preference order (the capture is the segment consumed by `cap`). -/
def matchList (pat : Pattern) (s : List Char) : List (List Char) :=
  joinMap
    (fun s1 =>
      joinMap
        (fun s2 =>
          (runAll pat.post s2).map (fun _ => s1.take (s1.length - s2.length)))
        (runAll pat.cap s1))
    (runAll pat.pre s)

/-- The capture of the preferred match anchored at the start of `s`. -/
def matchAt (pat : Pattern) (s : List Char) : Option (List Char) :=
  (matchList pat s).head?

/-- `re.search`: the match anchored at the leftmost position where the whole
pattern succeeds wins; returns that match's capture group. -/
def reSearch (pat : Pattern) : List Char → Option (List Char)
  | [] => matchAt pat []
  | c :: rest =>
    match matchAt pat (c :: rest) with
    | some capture => some capture
    | none => reSearch pat rest

/-- Shape shared by all curated field patterns except Glucose, e.g.
`r'HbA1c\s+([\d.]+)'`: the label literal, `\s+`, then the capture `([\d.]+)`.
All field patterns are matched with `re.IGNORECASE` (line 247). -/
def labelNumPat (label : String) : Pattern :=
  ⟨[Tok.lit label.data true, Tok.plusG pyWs], [Tok.plusG digitDot], []⟩

/-- `r'Glucose.*?([\d.]+)\s*mg/dL'` (line 228): the only pattern with text
required after the capture group. -/
def glucosePat : Pattern :=
  ⟨[Tok.lit "Glucose".data true, Tok.starL reDot], [Tok.plusG digitDot],
   [Tok.starG pyWs, Tok.lit "mg/dL".data true]⟩

/-- The `test_patterns` dictionary of lines 226-242.  `r'E\.S\.R\.\s+([\d.]+)'`
has its dots escaped, so its label is the literal `E.S.R.`. -/
def test_patterns : List (String × Pattern) :=
  [("HbA1c", labelNumPat "HbA1c"),
   ("Glucose", glucosePat),
   ("Hb", labelNumPat "Hemoglobin"),
   ("WBC", labelNumPat "WBC/TLC"),
   ("Platelet", labelNumPat "Platelet Count"),
   ("ALT", labelNumPat "SGPT - ALT"),
   ("AST", labelNumPat "SGOT - AST"),
   ("ESR", labelNumPat "E.S.R."),
   ("Calcium", labelNumPat "Serum Calcium"),
   ("Creatinine", labelNumPat "Creatinine"),
   ("Urea", labelNumPat "Urea"),
   ("Albumin", labelNumPat "Albumin"),
   ("Bilirubin", labelNumPat "Total Bilirubin"),
   ("ALP", labelNumPat "Serum alkaline phosphatase - ALP"),
   ("Cholesterol", labelNumPat "Cholesterol")]

/-- Dictionary lookup `test_patterns[test]` guarded by
`if test in test_patterns` (lines 245-246). -/
def lookupPattern (test : String) : Option Pattern :=
  match test_patterns.find? (fun p => p.1 == test) with
  | some p => some p.2
  | none => none

/-- `r'Received On\s*:\s*(\d{2}/\d{2}/\d{4})'` (line 255).  Unlike the field
searches, this `re.search` call passes no `re.IGNORECASE` flag, so the label
`Received On` is matched case-sensitively. -/
def datePat : Pattern :=
  ⟨[Tok.lit "Received On".data false, Tok.starG pyWs, Tok.lit ":".data false,
    Tok.starG pyWs],
   [Tok.repN Char.isDigit 2, Tok.lit "/".data false, Tok.repN Char.isDigit 2,
    Tok.lit "/".data false, Tok.repN Char.isDigit 4],
   []⟩

/-- Value of a digit string (most significant first). -/
def digitsToNat (cs : List Char) : Nat :=
  cs.foldl (fun a c => 10 * a + (c.toNat - 48)) 0

/-- Python `float(s)` (line 250) restricted to strings over the capture
alphabet `[\d.]`: succeeds exactly when the string is nonempty digits with at
most one dot and at least one digit; the value is the exact decimal, as a
rational.  `float('.')`, `float('..')`, `float('1.2.3')` raise `ValueError`
and are modelled as `none`. -/
def parseFloat (cs : List Char) : Option ℚ :=
  if cs.all digitDot && cs.any Char.isDigit && (cs.countP (fun c => c == '.') ≤ 1) then
    let intPart := cs.takeWhile (fun c => c != '.')
    let fracPart := (cs.dropWhile (fun c => c != '.')).drop 1
    some (mkRat (digitsToNat (intPart ++ fracPart)) (10 ^ fracPart.length))
  else none

/-- A calendar date as parsed by the date locator. -/
structure PDate where
  year : Nat
  month : Nat
  day : Nat
deriving DecidableEq, Repr

/-- Gregorian leap-year rule. -/
def isLeap (y : Nat) : Bool :=
  y % 4 == 0 && (y % 100 != 0 || y % 400 == 0)

/-- Days of a month in a given year. -/
def daysInMonth (y m : Nat) : Nat :=
  if m == 2 then (if isLeap y then 29 else 28)
  else if m == 4 || m == 6 || m == 9 || m == 11 then 30
  else 31

/-- The representable range of `pandas.Timestamp` for midnight timestamps:
1677-09-22 through 2262-04-11; `pd.to_datetime` raises outside it. -/
def inPandasBounds (y m d : Nat) : Bool :=
  (1677 < y || (y == 1677 && (9 < m || (m == 9 && 22 ≤ d)))) &&
  (y < 2262 || (y == 2262 && (m < 4 || (m == 4 && d ≤ 11))))

/-- `pd.to_datetime(s, format='%d/%m/%Y')` (line 258) on a capture of shape
`\d{2}/\d{2}/\d{4}`: day-month-year with calendar validation; any failure is
swallowed by the bare `except` at line 259 and modelled as `none`. -/
def parseDate : List Char → Option PDate
  | [d1, d2, '/', m1, m2, '/', y1, y2, y3, y4] =>
    if [d1, d2, m1, m2, y1, y2, y3, y4].all Char.isDigit then
      let d := digitsToNat [d1, d2]
      let m := digitsToNat [m1, m2]
      let y := digitsToNat [y1, y2, y3, y4]
      if (1 ≤ m && m ≤ 12) && (1 ≤ d && d ≤ daysInMonth y m) && inPandasBounds y m d
      then some ⟨y, m, d⟩ else none
    else none
  | _ => none

/-- A value stored in the extractor's result dictionary: a numeric lab value
(line 251), the document date (line 258), or the filename string the batch
loop attaches (line 360). -/
inductive LabValue where
  | num (v : ℚ)
  | date (d : PDate)
  | str (s : String)
deriving DecidableEq, Repr

/-- Python dictionary assignment `dict[k] = v`: overwrite in place when the
key exists, append otherwise. -/
def dinsert (l : List (String × LabValue)) (k : String) (v : LabValue) :
    List (String × LabValue) :=
  if l.any (fun p => p.1 == k) then
    l.map (fun p => if p.1 == k then (k, v) else p)
  else l ++ [(k, v)]

/-- Key lookup in the result dictionary. -/
def lookupKey (l : List (String × LabValue)) (k : String) : Option LabValue :=
  match l with
  | [] => none
  | p :: rest => if p.1 = k then some p.2 else lookupKey rest k

/-- Lines 245-253 for a single requested test: registry lookup, pattern
search over the normalized text, then `float` coercion; `none` when any of
the three steps fails (missing registry entry, no match, or the swallowed
`ValueError`). -/
def tryField (t : List Char) (test : String) : Option ℚ :=
  match lookupPattern test with
  | none => none
  | some pat =>
    match reSearch pat t with
    | none => none
    | some capture => parseFloat capture

/-- Lines 255-260: search for the date pattern, then parse, failures
swallowed. -/
def tryDate (t : List Char) : Option PDate :=
  match reSearch datePat t with
  | none => none
  | some capture => parseDate capture

/-- Loop body of lines 244-253: store the test's value on success, leave the
dictionary unchanged otherwise. -/
def fieldStep (t : List Char) (acc : List (String × LabValue)) (test : String) :
    List (String × LabValue) :=
  match tryField t test with
  | none => acc
  | some v => dinsert acc test (LabValue.num v)

/-- `extract_lab_values_simple(text, tests)` of `src/app.py` lines 222-262:
normalizeText the text, try each requested test's pattern, then locate the
document date under the key `Date`. -/
def extract_lab_values_simple (text : String) (tests : List String) :
    List (String × LabValue) :=
  match tryDate (normalizeText text).data with
  | none => tests.foldl (fieldStep (normalizeText text).data) []
  | some d =>
    dinsert (tests.foldl (fieldStep (normalizeText text).data) []) "Date"
      (LabValue.date d)

/-- Outcome of the external PDF-to-text collaborator (PyMuPDF): either the
recovered text or the message of the exception it raised. -/
inductive PdfOutcome where
  | ok (text : String)
  | err (msg : String)

/-- `extract_text_from_pdf(file)` of lines 208-220, with the collaborator's
outcome passed in: on success the text is returned; on any exception the
handler at lines 218-220 reports `st.error(...)` (modelled as the second
component) and returns the empty string.  The exception is never re-raised. -/
def extract_text_from_pdf (name : String) (conv : PdfOutcome) :
    String × Option String :=
  match conv with
  | .ok t => (t, none)
  | .err e => ("", some ("Error reading PDF " ++ name ++ ": " ++ e))

/-- The batch loop of lines 351-361: per uploaded file, convert to text; a
falsy (empty) text is skipped, a falsy (empty) extraction result is skipped,
otherwise the record is kept with its `Filename` attached.  Processing always
continues with the remaining files. -/
def process_files : List (String × PdfOutcome) → List String →
    List (List (String × LabValue))
  | [], _ => []
  | (name, conv) :: rest, tests =>
    if (extract_text_from_pdf name conv).1 ≠ "" then
      if extract_lab_values_simple (extract_text_from_pdf name conv).1 tests ≠ [] then
        dinsert (extract_lab_values_simple (extract_text_from_pdf name conv).1 tests)
            "Filename" (LabValue.str name) :: process_files rest tests
      else process_files rest tests
    else process_files rest tests

/-- A requested field is recognizable in normalized text `t` when its curated
pattern matches with a coercible capture, or — for the special key `Date` —
when the date locator succeeds. -/
def fieldRecognized (t : List Char) (f : String) : Bool :=
  (tryField t f).isSome || (decide (f = "Date") && (tryDate t).isSome)

/-! ### Helper lemmas -/

theorem collapseWs_idem : ∀ (l : List Char) (b : Bool),
    collapseWs b (collapseWs b l) = collapseWs b l
  | [], _ => rfl
  | c :: rest, b => by
    by_cases h : pyWs c
    · cases b with
      | true => simp [collapseWs, h, collapseWs_idem rest true]
      | false =>
        have hs : pyWs ' ' = true := rfl
        simp [collapseWs, h, hs, collapseWs_idem rest true]
    · simp [collapseWs, h, collapseWs_idem rest false]

theorem normalizeText_idem (s : String) :
    normalizeText (normalizeText s) = normalizeText s :=
  congrArg String.mk (collapseWs_idem s.data false)

theorem collapseWs_filter : ∀ (l : List Char) (b : Bool),
    (collapseWs b l).filter (fun c => !pyWs c) = l.filter (fun c => !pyWs c)
  | [], _ => rfl
  | c :: rest, b => by
    by_cases h : pyWs c
    · cases b with
      | true => simp [collapseWs, h, List.filter_cons, collapseWs_filter rest true]
      | false =>
        have hs : pyWs ' ' = true := rfl
        simp [collapseWs, h, hs, List.filter_cons, collapseWs_filter rest true]
    · simp [collapseWs, h, List.filter_cons, collapseWs_filter rest false]

theorem mem_dinsert {l : List (String × LabValue)} {k : String} {v : LabValue}
    {p : String × LabValue} (h : p ∈ dinsert l k v) : p ∈ l ∨ p = (k, v) := by
  unfold dinsert at h
  by_cases hk : l.any (fun q => q.1 == k)
  · rw [if_pos hk, List.mem_map] at h
    obtain ⟨q, hq, rfl⟩ := h
    by_cases h2 : q.1 == k
    · rw [if_pos h2]; exact Or.inr rfl
    · rw [if_neg h2]; exact Or.inl hq
  · rw [if_neg hk, List.mem_append, List.mem_singleton] at h
    exact h

theorem lookupKey_map_ne {k j : String} (v : LabValue) (hj : j ≠ k) :
    ∀ l : List (String × LabValue),
      lookupKey (l.map (fun p => if p.1 == k then (k, v) else p)) j = lookupKey l j
  | [] => rfl
  | p :: rest => by
    by_cases h2 : p.1 == k
    · have hpk : p.1 = k := by simpa using h2
      simp only [List.map_cons, if_pos h2, lookupKey]
      rw [if_neg (fun hc => hj hc.symm), if_neg (by rw [hpk]; exact fun hc => hj hc.symm)]
      exact lookupKey_map_ne v hj rest
    · simp only [List.map_cons, if_neg h2, lookupKey]
      by_cases hp : p.1 = j
      · rw [if_pos hp, if_pos hp]
      · rw [if_neg hp, if_neg hp]
        exact lookupKey_map_ne v hj rest

theorem lookupKey_append_ne {k j : String} (v : LabValue) (hj : j ≠ k) :
    ∀ l : List (String × LabValue),
      lookupKey (l ++ [(k, v)]) j = lookupKey l j
  | [] => by
    simp only [List.nil_append, lookupKey]
    rw [if_neg (fun hc => hj hc.symm)]
  | p :: rest => by
    simp only [List.cons_append, lookupKey]
    by_cases hp : p.1 = j
    · rw [if_pos hp, if_pos hp]
    · rw [if_neg hp, if_neg hp]
      exact lookupKey_append_ne v hj rest

theorem lookupKey_dinsert_ne (l : List (String × LabValue)) (k : String)
    (v : LabValue) (j : String) (hj : j ≠ k) :
    lookupKey (dinsert l k v) j = lookupKey l j := by
  unfold dinsert
  by_cases hk : l.any (fun q => q.1 == k)
  · rw [if_pos hk]; exact lookupKey_map_ne v hj l
  · rw [if_neg hk]; exact lookupKey_append_ne v hj l

theorem lookupKey_foldl_fieldStep_none (t : List Char) (f : String)
    (hf : tryField t f = none) :
    ∀ (tests : List String) (acc : List (String × LabValue)),
      lookupKey acc f = none → lookupKey (tests.foldl (fieldStep t) acc) f = none
  | [], _, h => h
  | test :: tests, acc, h => by
    rw [List.foldl_cons]
    apply lookupKey_foldl_fieldStep_none t f hf tests
    unfold fieldStep
    by_cases ht : test = f
    · subst ht; rw [hf]; exact h
    · cases hv : tryField t test with
      | none => exact h
      | some v =>
        rw [lookupKey_dinsert_ne _ _ _ _ (fun hc => ht hc.symm)]
        exact h

theorem lookup_extract_none (text : String) (tests : List String) (f : String)
    (h1 : tryField (normalizeText text).data f = none)
    (h2 : f = "Date" → tryDate (normalizeText text).data = none) :
    lookupKey (extract_lab_values_simple text tests) f = none := by
  unfold extract_lab_values_simple
  cases hd : tryDate (normalizeText text).data with
  | none => exact lookupKey_foldl_fieldStep_none _ f h1 tests [] rfl
  | some d =>
    by_cases hf : f = "Date"
    · rw [h2 hf] at hd; exact Option.noConfusion hd
    · rw [lookupKey_dinsert_ne _ _ _ _ hf]
      exact lookupKey_foldl_fieldStep_none _ f h1 tests [] rfl

theorem mem_foldl_fieldStep (t : List Char) :
    ∀ (tests : List String) (acc : List (String × LabValue)) (p : String × LabValue),
      p ∈ tests.foldl (fieldStep t) acc → p ∈ acc ∨ p.1 ∈ tests
  | [], _, _, h => Or.inl h
  | test :: tests, acc, p, h => by
    rw [List.foldl_cons] at h
    rcases mem_foldl_fieldStep t tests (fieldStep t acc test) p h with h1 | h1
    · unfold fieldStep at h1
      cases hv : tryField t test with
      | none => rw [hv] at h1; exact Or.inl h1
      | some v =>
        rw [hv] at h1
        rcases mem_dinsert h1 with h2 | h2
        · exact Or.inl h2
        · right; rw [h2]; exact List.mem_cons_self test tests
    · exact Or.inr (List.mem_cons_of_mem test h1)

/-! ### Claim theorems -/

/-- C1: for the input text `"Patient Report HbA1c 6.8 % Glucose 142 mg/dL
Received On : 01/09/2025"` and requested fields `["HbA1c", "Glucose", "Hb"]`,
extraction maps `HbA1c` to the numeric value 6.8 and `Glucose` to the numeric
value 142, contains no `Hb` key, and the observed date is 1 September 2025. -/
theorem C1_end_to_end :
    extract_lab_values_simple
        "Patient Report HbA1c 6.8 % Glucose 142 mg/dL Received On : 01/09/2025"
        ["HbA1c", "Glucose", "Hb"]
      = [("HbA1c", LabValue.num (mkRat 34 5)), ("Glucose", LabValue.num 142),
         ("Date", LabValue.date ⟨2025, 9, 1⟩)] := by decide

/-- C2: extraction is a total function (it is defined for every input text
and requested-field list, all fallible steps being modelled by `Option`), and
the record it returns is structurally valid: every key it contains is either
one of the requested fields or the date key `Date`. -/
theorem C2_no_fatal_structural :
    ∀ (text : String) (tests : List String) (p : String × LabValue),
      p ∈ extract_lab_values_simple text tests → p.1 ∈ tests ∨ p.1 = "Date" := by
  intro text tests p h
  unfold extract_lab_values_simple at h
  cases hd : tryDate (normalizeText text).data with
  | none =>
    rw [hd] at h
    rcases mem_foldl_fieldStep _ tests [] p h with h1 | h1
    · exact absurd h1 (List.not_mem_nil p)
    · exact Or.inl h1
  | some d =>
    rw [hd] at h
    rcases mem_dinsert h with h1 | h1
    · rcases mem_foldl_fieldStep _ tests [] p h1 with h2 | h2
      · exact absurd h2 (List.not_mem_nil p)
      · exact Or.inl h2
    · rw [h1]; exact Or.inr rfl

/-- Witness for C2 at a concrete input. -/
theorem C2_no_fatal_structural_witness :
    (("HbA1c", LabValue.num 5) ∈ extract_lab_values_simple "HbA1c 5" ["HbA1c"])
    ∧ ("HbA1c" ∈ ["HbA1c"] ∨ "HbA1c" = "Date") :=
  ⟨by decide,
   C2_no_fatal_structural "HbA1c 5" ["HbA1c"] ("HbA1c", LabValue.num 5) (by decide)⟩

/-- C3 counterexample: on the text `"HbA1c .."` the `HbA1c` pattern matches
with capture `".."`, that capture does not parse as a number, and — contrary
to the claim that the raw captured string is stored as a textual value — the
extractor returns a record with no `HbA1c` entry at all. -/
theorem C3_counterexample :
    reSearch (labelNumPat "HbA1c") (normalizeText "HbA1c ..").data = some ['.', '.']
    ∧ parseFloat ['.', '.'] = none
    ∧ extract_lab_values_simple "HbA1c .." ["HbA1c"] = [] :=
  ⟨rfl, rfl, by decide⟩

/-- C3 (amended): whenever a requested field's pattern matches the text but
the captured substring does not parse as a base-10 number, the field is
omitted from the record (the `ValueError` of line 252 is swallowed); no
raw-text value is stored and no error is raised. -/
theorem C3_amended_coercion_omits :
    ∀ (text : String) (tests : List String) (f : String) (pat : Pattern)
      (capture : List Char),
      lookupPattern f = some pat →
      reSearch pat (normalizeText text).data = some capture →
      parseFloat capture = none →
      lookupKey (extract_lab_values_simple text tests) f = none := by
  intro text tests f pat capture hl hs hp
  apply lookup_extract_none
  · simp only [tryField, hl, hs, hp]
  · intro hf
    subst hf
    rw [show lookupPattern "Date" = none from rfl] at hl
    exact Option.noConfusion hl

/-- Witness for the amended C3 at the concrete input `"HbA1c .."`. -/
theorem C3_amended_coercion_omits_witness :
    (lookupPattern "HbA1c" = some (labelNumPat "HbA1c")
      ∧ reSearch (labelNumPat "HbA1c") (normalizeText "HbA1c ..").data = some ['.', '.']
      ∧ parseFloat ['.', '.'] = none)
    ∧ lookupKey (extract_lab_values_simple "HbA1c .." ["HbA1c"]) "HbA1c" = none :=
  ⟨⟨rfl, rfl, rfl⟩,
   C3_amended_coercion_omits "HbA1c .." ["HbA1c"] "HbA1c" (labelNumPat "HbA1c")
     ['.', '.'] rfl rfl rfl⟩

/-- C4 counterexample: `CEA` has no entry in `test_patterns`, and — contrary
to the claim that a generic label-plus-number rule is synthesized for it —
the text `"CEA 7.5"` yields a record with no `CEA` entry (the field is
skipped by the `if test in test_patterns` guard). -/
theorem C4_counterexample :
    lookupPattern "CEA" = none
    ∧ extract_lab_values_simple "CEA 7.5" ["CEA"] = [] :=
  ⟨rfl, by decide⟩

/-- C4 (amended): a requested field with no curated entry in the pattern
registry is skipped entirely — no generic rule is synthesized — so such a
field never appears in the record (the `Date` key, which is written by the
separate date locator and never by field extraction, is excluded). -/
theorem C4_amended_unregistered_skipped :
    ∀ (text : String) (tests : List String) (f : String),
      lookupPattern f = none → f ≠ "Date" →
      lookupKey (extract_lab_values_simple text tests) f = none := by
  intro text tests f hl hf
  apply lookup_extract_none
  · unfold tryField; rw [hl]
  · intro h; exact absurd h hf

/-- Witness for the amended C4 at the concrete input `"CEA 7.5"`. -/
theorem C4_amended_unregistered_skipped_witness :
    (lookupPattern "CEA" = none ∧ "CEA" ≠ "Date")
    ∧ lookupKey (extract_lab_values_simple "CEA 7.5" ["CEA"]) "CEA" = none :=
  ⟨⟨rfl, by decide⟩,
   C4_amended_unregistered_skipped "CEA 7.5" ["CEA"] "CEA" rfl (by decide)⟩

/-- C5: absence-is-absence — when a requested field is not recognizable in
the text (its pattern does not match with a coercible capture, and, for the
date key, the date locator fails), the returned record does not contain that
key; no zero or empty placeholder is ever inserted. -/
theorem C5_absence_is_absence :
    ∀ (text : String) (tests : List String) (f : String),
      fieldRecognized (normalizeText text).data f = false →
      lookupKey (extract_lab_values_simple text tests) f = none := by
  intro text tests f h
  unfold fieldRecognized at h
  apply lookup_extract_none
  · cases ho : tryField (normalizeText text).data f with
    | none => rfl
    | some v => rw [ho] at h; simp at h
  · intro hf
    subst hf
    cases hd : tryDate (normalizeText text).data with
    | none => rfl
    | some d => rw [hd] at h; simp at h

/-- Witness for C5 at a concrete input with no recognizable label. -/
theorem C5_absence_is_absence_witness :
    fieldRecognized (normalizeText "no labs here").data "Hb" = false
    ∧ lookupKey (extract_lab_values_simple "no labs here" ["Hb"]) "Hb" = none :=
  ⟨by decide, C5_absence_is_absence "no labs here" ["Hb"] "Hb" (by decide)⟩

/-- C6 counterexample: the claim implies unlabeled bare-date patterns are
tried (last) by the date locator, but the locator of line 255 has only the
single labeled pattern `Received On\s*:\s*(\d{2}/\d{2}/\d{4})`: a text that
consists of nothing but a bare well-formed date yields a record with no
observed date at all. -/
theorem C6_counterexample :
    extract_lab_values_simple "05/06/2024" [] = [] := by decide

/-- C6 (amended): the date locator has exactly one pattern, the labeled
`Received On : dd/mm/yyyy` shape; the observed date is determined by the
first match of that pattern when its captured token parses as a valid
calendar date (a labeled but invalid token yields no date); unlabeled bare
dates are never recognized.  In particular the labeled date
`Received On: 12/03/2024` next to an unrelated bare date-shaped token yields
12 March 2024. -/
theorem C6_amended_date_precedence :
    extract_lab_values_simple "Range 05/06/2024 Received On: 12/03/2024" []
      = [("Date", LabValue.date ⟨2024, 3, 12⟩)]
    ∧ extract_lab_values_simple "Received On : 99/99/2024" [] = []
    ∧ extract_lab_values_simple "05/06/2024" [] = [] :=
  ⟨by decide, by decide, by decide⟩

/-- C7 counterexample: when the document-to-text conversion fails, the
failure is not surfaced unchanged to the caller: `extract_text_from_pdf`
catches it, reports a reworded per-document message, and hands the caller an
ordinary empty string. -/
theorem C7_counterexample :
    (extract_text_from_pdf "report.pdf" (PdfOutcome.err "bad xref")).1 = ""
    ∧ (extract_text_from_pdf "report.pdf" (PdfOutcome.err "bad xref")).2
        ≠ some "bad xref" := by
  exact ⟨rfl, by decide⟩

/-- C7 (amended): when document-to-text conversion fails,
`extract_text_from_pdf` catches the exception itself, reports the error
per-document, and returns an empty string instead of surfacing the failure;
the batch loop treats the empty text as falsy, skips the document, and
continues with the remaining documents.  No retry is performed. -/
theorem C7_amended_failure_swallowed :
    ∀ (name e : String) (rest : List (String × PdfOutcome)) (tests : List String),
      extract_text_from_pdf name (PdfOutcome.err e)
        = ("", some ("Error reading PDF " ++ name ++ ": " ++ e))
      ∧ process_files ((name, PdfOutcome.err e) :: rest) tests
          = process_files rest tests := by
  intro name e rest tests
  refine ⟨rfl, ?_⟩
  simp [process_files, extract_text_from_pdf]

/-- C8 counterexample: date matching is not case-insensitive — the lowercase
label `received on` is not recognized (no `re.IGNORECASE` flag at line 255),
while the exact-case label is. -/
theorem C8_counterexample :
    extract_lab_values_simple "received on : 01/09/2025" [] = []
    ∧ extract_lab_values_simple "Received On : 01/09/2025" []
        = [("Date", LabValue.date ⟨2025, 9, 1⟩)] :=
  ⟨by decide, by decide⟩

/-- C8 (amended): the normalizer leaves the original case intact (it changes
no character outside whitespace runs), field pattern matching is
case-insensitive, but date matching is case-sensitive: the label
`Received On` must appear with exactly that capitalization. -/
theorem C8_amended_case_sensitivity :
    (∀ t : String, (normalizeText t).data.filter (fun c => !pyWs c)
        = t.data.filter (fun c => !pyWs c))
    ∧ extract_lab_values_simple "hba1c 6.8" ["HbA1c"]
        = [("HbA1c", LabValue.num (mkRat 34 5))]
    ∧ extract_lab_values_simple "GLUCOSE 142 MG/DL" ["Glucose"]
        = [("Glucose", LabValue.num 142)]
    ∧ extract_lab_values_simple "received on : 01/09/2025" [] = []
    ∧ extract_lab_values_simple "Received On : 01/09/2025" []
        = [("Date", LabValue.date ⟨2025, 9, 1⟩)] :=
  ⟨fun t => collapseWs_filter t.data false, by decide, by decide, by decide, by decide⟩

/-- C9: normalization is idempotent with respect to extraction — extracting
from once-normalized text gives exactly the same record as extracting from
twice-normalized text, for every input string and requested-field list. -/
theorem C9_idempotent_normalization :
    ∀ (t : String) (tests : List String),
      extract_lab_values_simple (normalizeText t) tests
        = extract_lab_values_simple (normalizeText (normalizeText t)) tests := by
  intro t tests
  rw [normalizeText_idem]

/-- C10: Glucose is the only supported field whose recognition requires a
unit — its pattern alone has required text (` mg/dL`) after the numeric
capture, so `"Glucose 142"` without the unit yields no Glucose key while
`"Glucose 142 mg/dL"` succeeds — and every other registered field is
extracted from label and number alone, with no unit text required. -/
theorem C10_glucose_unit_only :
    extract_lab_values_simple "Glucose 142" ["Glucose"] = []
    ∧ extract_lab_values_simple "Glucose 142 mg/dL" ["Glucose"]
        = [("Glucose", LabValue.num 142)]
    ∧ glucosePat.post.isEmpty = false
    ∧ test_patterns.all (fun p => p.1 == "Glucose" || p.2.post.isEmpty) = true
    ∧ extract_lab_values_simple "HbA1c 6.8" ["HbA1c"]
        = [("HbA1c", LabValue.num (mkRat 34 5))]
    ∧ extract_lab_values_simple "Hemoglobin 13.5" ["Hb"]
        = [("Hb", LabValue.num (mkRat 27 2))]
    ∧ extract_lab_values_simple "WBC/TLC 8000" ["WBC"] = [("WBC", LabValue.num 8000)]
    ∧ extract_lab_values_simple "Platelet Count 250" ["Platelet"]
        = [("Platelet", LabValue.num 250)]
    ∧ extract_lab_values_simple "SGPT - ALT 30" ["ALT"] = [("ALT", LabValue.num 30)]
    ∧ extract_lab_values_simple "SGOT - AST 28" ["AST"] = [("AST", LabValue.num 28)]
    ∧ extract_lab_values_simple "E.S.R. 12" ["ESR"] = [("ESR", LabValue.num 12)]
    ∧ extract_lab_values_simple "Serum Calcium 9.2" ["Calcium"]
        = [("Calcium", LabValue.num (mkRat 46 5))]
    ∧ extract_lab_values_simple "Creatinine 1.1" ["Creatinine"]
        = [("Creatinine", LabValue.num (mkRat 11 10))]
    ∧ extract_lab_values_simple "Urea 30" ["Urea"] = [("Urea", LabValue.num 30)]
    ∧ extract_lab_values_simple "Albumin 4.2" ["Albumin"]
        = [("Albumin", LabValue.num (mkRat 21 5))]
    ∧ extract_lab_values_simple "Total Bilirubin 0.8" ["Bilirubin"]
        = [("Bilirubin", LabValue.num (mkRat 4 5))]
    ∧ extract_lab_values_simple "Serum alkaline phosphatase - ALP 100" ["ALP"]
        = [("ALP", LabValue.num 100)]
    ∧ extract_lab_values_simple "Cholesterol 180" ["Cholesterol"]
        = [("Cholesterol", LabValue.num 180)] :=
  ⟨by decide, by decide, rfl, rfl, by decide, by decide, by decide, by decide,
   by decide, by decide, by decide, by decide, by decide, by decide, by decide,
   by decide, by decide, by decide⟩
